import Mathlib

/-!
Verification of the DocumentR repository (Btax.py and DocumentR.py).

The numeric code of Btax.py is embedded over ℚ (the Python source computes
with exact decimal literals; all constants here are exactly representable).
The retry/fallback and summarization logic of DocumentR.py is embedded as
pure functions over an abstract model of the LLM: the behaviour of a unit of
work is a function from the attempt index to an outcome (success value or
exception text), and the random jitter is an explicit input sequence.
-/

namespace Btax

/-- Embedding of `calculate_business_tax` (Btax.py lines 30-35):
flat 27% company rate, returns (tax_amount, tax_rate). -/
def calculate_business_tax (taxable_income : ℚ) : ℚ × ℚ :=
  let tax_rate : ℚ := 27 / 100
  (taxable_income * tax_rate, tax_rate)

/-- One row of the `tax_brackets` table of `calculate_small_business_tax`
(Btax.py lines 39-44). `max_income = none` stands for `float('inf')`. -/
structure TaxBracket where
  min_income : ℚ
  max_income : Option ℚ
  rate : ℚ
  base_tax : ℚ
deriving DecidableEq, Repr

/-- The small-business bracket table (Btax.py lines 39-44); the base-tax
constants are 19162.50 and 58037.50. -/
def tax_brackets : List TaxBracket :=
  [⟨0, some 91250, 0, 0⟩,
   ⟨91251, some 365000, 7 / 100, 0⟩,
   ⟨365001, some 550000, 21 / 100, 38325 / 2⟩,
   ⟨550001, none, 28 / 100, 116075 / 2⟩]

/-- The loop guard `min_income <= taxable_income <= max_income`
(Btax.py line 47); an infinite upper bound is always satisfied. -/
def bracket_matches (taxable_income : ℚ) (b : TaxBracket) : Bool :=
  decide (b.min_income ≤ taxable_income) &&
    (match b.max_income with
     | some m => decide (taxable_income ≤ m)
     | none => true)

/-- The bracket search of the `for` loop in `calculate_small_business_tax`
(Btax.py lines 46-49): first row whose range contains the income, if any. -/
def find_bracket (taxable_income : ℚ) : List TaxBracket → Option TaxBracket
  | [] => none
  | b :: rest =>
    if bracket_matches taxable_income b then some b
    else find_bracket taxable_income rest

/-- Embedding of `calculate_small_business_tax` (Btax.py lines 37-50):
the first matching bracket yields
`tax = base_tax + (taxable_income - min_income + 1) * rate`; if no bracket
matches, the trailing `return 0, 0` is taken. -/
def calculate_small_business_tax (taxable_income : ℚ) : ℚ × ℚ :=
  match find_bracket taxable_income tax_brackets with
  | some b => (b.base_tax + (taxable_income - b.min_income + 1) * b.rate, b.rate)
  | none => (0, 0)

/-- Result row of `calculate_depreciation` (Btax.py lines 395-403). -/
structure DepreciationResult where
  annual_depreciation : ℚ
  accumulated_depreciation : ℚ
  current_value : ℚ
deriving DecidableEq, Repr

/-- Embedding of `calculate_depreciation` (Btax.py lines 395-403).
In the source `years_owned = (datetime.now() - row['purchase_date']).days / 365`
is computed from dates; here it is passed as an input. -/
def calculate_depreciation (purchase_cost expected_life years_owned : ℚ) :
    DepreciationResult :=
  let annual_depreciation := purchase_cost / expected_life
  let accumulated_depreciation :=
    min (years_owned * annual_depreciation) purchase_cost
  { annual_depreciation := annual_depreciation
    accumulated_depreciation := accumulated_depreciation
    current_value := max (purchase_cost - accumulated_depreciation) 0 }

/-- Taxable income as computed on the Tax Calculator page (Btax.py lines
466-470): `total_deductions = total_expenses + total_depreciation` and
`taxable_income = max(0, total_revenue - total_deductions)`. -/
def taxable_income_calculator_page
    (total_revenue total_expenses total_depreciation : ℚ) : ℚ :=
  let total_deductions := total_expenses + total_depreciation
  max 0 (total_revenue - total_deductions)

/-- Taxable income as computed on the Reports page (Btax.py lines 539-540):
`taxable_income = max(0, total_revenue - total_expenses - total_depreciation)`. -/
def taxable_income_reports_page
    (total_revenue total_expenses total_depreciation : ℚ) : ℚ :=
  max 0 (total_revenue - total_expenses - total_depreciation)

end Btax

namespace DocumentR

/-- Outcome of one attempt of the unit of work wrapped by `process_with_retry`:
either `func(*args, **kwargs)` returns a value, or it raises an exception with
the given text. -/
inductive Outcome
  | success (v : String)
  | failure (msg : String)
deriving DecidableEq, Repr

/-- Does `pat` begin the character list `s`? (helper for the Python substring
test `"429" in str(e)`, DocumentR.py line 109). -/
def beginsWith : List Char → List Char → Bool
  | [], _ => true
  | _ :: _, [] => false
  | p :: ps, c :: cs => p == c && beginsWith ps cs

/-- Does `pat` occur as a contiguous substring of `s`? -/
def hasSubstring (pat : List Char) : List Char → Bool
  | [] => beginsWith pat []
  | c :: cs => beginsWith pat (c :: cs) || hasSubstring pat cs

/-- The test `"429" in str(e)` of DocumentR.py line 109. -/
def contains429 (s : String) : Bool :=
  hasSubstring (['4', '2', '9']) s.toList

/-- What a run of `process_with_retry` returns. -/
inductive RetryOutcome
  | ok (v : String)
  | fallbackReturn (v : String)
  | raised (msg : String)
  | noReturn
deriving DecidableEq, Repr

/-- Observable record of a run of `process_with_retry`: the returned value (or
raised exception), the argument of each `time.sleep` call, and how many times
the fallback model was invoked. -/
structure RunResult where
  result : RetryOutcome
  delays : List ℚ
  fallbackCalls : ℕ
deriving DecidableEq, Repr

/-- The loop `for attempt in range(max_retries)` of `process_with_retry`
(DocumentR.py lines 105-117), starting at index `attempt` with `remaining + 1`
iterations left when the fuel is `remaining + 1` (so `attempt < max_retries - 1`
becomes `0 < remaining`, and `attempt == max_retries - 1` becomes
`remaining = 0`). `behavior i` is the outcome of calling `func` on attempt `i`;
`jitter i` models the `random.random()` summand of attempt `i`; `fallbackOut`
models the text produced by the fallback pipeline at index 0 under the
`max_length=100` cap. -/
def retryGo (behavior : ℕ → Outcome) (jitter : ℕ → ℚ) (fallbackOut : String) :
    ℕ → ℕ → RunResult
  | _, 0 => ⟨.noReturn, [], 0⟩
  | attempt, remaining + 1 =>
    match behavior attempt with
    | .success v => ⟨.ok v, [], 0⟩
    | .failure msg =>
      if contains429 msg = true ∧ 0 < remaining then
        let rest := retryGo behavior jitter fallbackOut (attempt + 1) remaining
        ⟨rest.result, ((2 : ℚ) ^ attempt + jitter attempt) :: rest.delays,
          rest.fallbackCalls⟩
      else if remaining = 0 then
        ⟨.fallbackReturn fallbackOut, [], 1⟩
      else
        ⟨.raised msg, [], 0⟩

/-- Embedding of `process_with_retry(func, *args, max_retries=3, **kwargs)`
(DocumentR.py lines 103-117). -/
def process_with_retry (behavior : ℕ → Outcome) (jitter : ℕ → ℚ)
    (fallbackOut : String) (max_retries : ℕ) : RunResult :=
  retryGo behavior jitter fallbackOut 0 max_retries

/-- The backoff delays `2 ** attempt + random.random()` (DocumentR.py line 110)
for attempt indices `attempt, attempt + 1, ..., attempt + k - 1`. -/
def delaysFrom (jitter : ℕ → ℚ) : ℕ → ℕ → List ℚ
  | _, 0 => []
  | attempt, k + 1 =>
    ((2 : ℚ) ^ attempt + jitter attempt) :: delaysFrom jitter (attempt + 1) k

/-- Attempt `i` of the unit of work fails with a rate-limit signal: an
exception whose text contains 429. -/
def rate_limit_failure (behavior : ℕ → Outcome) (i : ℕ) : Prop :=
  ∃ msg, behavior i = .failure msg ∧ contains429 msg = true

/-- The per-chunk prompt of `generate_document_summary`: the template of
DocumentR.py lines 144-151 with the chunk substituted for the placeholder. -/
def summary_prompt_text (doc_chunk : String) : String :=
  "\n    Please provide a concise summary of the following document chunk. \n    Focus on the main topics, key points, and important details:\n\n    "
    ++ doc_chunk ++ "\n\n    Summary:\n    "

/-- The final prompt of `generate_document_summary`: the template of
DocumentR.py lines 162-168 with the combined summary substituted. -/
def final_summary_prompt_text (combined_summary : String) : String :=
  "\n    Please provide a concise overall summary of the following text:\n\n    "
    ++ combined_summary ++ "\n\n    Overall Summary:\n    "

/-- One chain invocation wrapped in the retry policy, as in
`process_with_retry(summary_chain.invoke, args)` (DocumentR.py lines 157, 171).
`behavior prompt` is the attempt-indexed behaviour of the chain on a given
prompt text. The call yields the returned string on a normal or fallback
return and propagates the exception (`none`) otherwise. -/
def llm_call_with_retry (behavior : String → ℕ → Outcome) (jitter : ℕ → ℚ)
    (fb : String) (max_retries : ℕ) (prompt : String) : Option String :=
  match (process_with_retry (behavior prompt) jitter fb max_retries).result with
  | .ok v => some v
  | .fallbackReturn v => some v
  | _ => none

/-- The per-chunk loop of `generate_document_summary` (DocumentR.py lines
155-158): each chunk is sent through the summary chain once, in list order,
with no other context. Returns the collected summaries (`none` if an
invocation raised, aborting the loop) together with the ordered list of
prompts issued. -/
def summarize_chunks (call : String → Option String) :
    List String → Option (List String) × List String
  | [] => (some [], [])
  | chunk :: rest =>
    match call (summary_prompt_text chunk) with
    | none => (none, [summary_prompt_text chunk])
    | some s =>
      let r := summarize_chunks call rest
      (r.1.map (fun l => s :: l), summary_prompt_text chunk :: r.2)

/-- Embedding of `generate_document_summary` (DocumentR.py lines 142-171):
per-chunk summaries are joined with a single space
(`combined_summary = " ".join(summaries)`) and the second prompt is invoked
once over the concatenation. The second component is the full ordered list of
prompts issued. -/
def generate_document_summary (call : String → Option String)
    (document_chunks : List String) : Option String × List String :=
  match summarize_chunks call document_chunks with
  | (none, log) => (none, log)
  | (some summaries, log) =>
    let combined_summary := String.intercalate (" ") summaries
    (call (final_summary_prompt_text combined_summary),
      log ++ [final_summary_prompt_text combined_summary])

/-- The module-level names bound by the import statements of DocumentR.py
(lines 1-20). The name datetime is never imported in that module. -/
def documentr_imported_names : List String :=
  ["st", "firebase_admin", "credentials", "firestore", "auth", "storage",
   "PyPDF2", "docx", "io", "BytesIO", "Image", "ImageDraw", "pytesseract",
   "ChatPromptTemplate", "ChatGoogleGenerativeAI", "StrOutputParser",
   "RunnablePassthrough", "ConversationBufferMemory", "base64",
   "RecursiveCharacterTextSplitter", "time", "random", "pipeline", "json"]

/-- Embedding of `upload_file_to_firebase` (DocumentR.py lines 124-140). The
try block evaluates the name datetime (line 128) before any storage call; if
datetime is not bound in the module scope, the lookup raises NameError, the
broad except branch runs (error banner) and the function returns None.
`upload_result` stands for `blob.public_url` on the path where the name
resolves and every external call succeeds. -/
def upload_file_to_firebase (module_scope : List String) (upload_result : String) :
    Option String :=
  if ("datetime") ∈ module_scope then some upload_result else none

end DocumentR

namespace Btax

/-- C1: for every non-negative income inside one of the four small-business
brackets (inclusive bounds), `calculate_small_business_tax` returns
`base_tax + (income - range_min + 1) * rate` together with that bracket's
rate; at income 91251 the tax is 0.07, at income 600000 it is 72037.50. -/
theorem c1_small_business_tax_formula :
    (∀ taxable_income : ℚ, 0 ≤ taxable_income →
      ∀ b ∈ tax_brackets, bracket_matches taxable_income b = true →
        calculate_small_business_tax taxable_income =
          (b.base_tax + (taxable_income - b.min_income + 1) * b.rate, b.rate)) ∧
    calculate_small_business_tax 91251 = (7 / 100, 7 / 100) ∧
    calculate_small_business_tax 600000 = (144075 / 2, 28 / 100) := by
  refine ⟨?_, ?_, ?_⟩
  · intro income h0 b hb hm
    simp only [tax_brackets, List.mem_cons, List.not_mem_nil, or_false] at hb
    rcases hb with rfl | rfl | rfl | rfl
    · simp only [bracket_matches, Bool.and_eq_true, decide_eq_true_eq] at hm
      obtain ⟨h1, h2⟩ := hm
      simp [calculate_small_business_tax, find_bracket, tax_brackets, bracket_matches,
        h1, h2]
    · simp only [bracket_matches, Bool.and_eq_true, decide_eq_true_eq] at hm
      obtain ⟨h1, h2⟩ := hm
      have hn0 : ¬ (income ≤ (91250 : ℚ)) := by linarith
      simp [calculate_small_business_tax, find_bracket, tax_brackets, bracket_matches,
        h0, h1, h2, hn0]
    · simp only [bracket_matches, Bool.and_eq_true, decide_eq_true_eq] at hm
      obtain ⟨h1, h2⟩ := hm
      have hn0 : ¬ (income ≤ (91250 : ℚ)) := by linarith
      have hn1 : ¬ (income ≤ (365000 : ℚ)) := by linarith
      simp [calculate_small_business_tax, find_bracket, tax_brackets, bracket_matches,
        h0, h1, h2, hn0, hn1]
    · simp only [bracket_matches, Bool.and_eq_true, decide_eq_true_eq,
        Bool.and_true] at hm
      have h1 : (550001 : ℚ) ≤ income := hm
      have hn0 : ¬ (income ≤ (91250 : ℚ)) := by linarith
      have hn1 : ¬ (income ≤ (365000 : ℚ)) := by linarith
      have hn2 : ¬ (income ≤ (550000 : ℚ)) := by linarith
      simp [calculate_small_business_tax, find_bracket, tax_brackets, bracket_matches,
        h0, h1, hn0, hn1, hn2]
  · norm_num [calculate_small_business_tax, find_bracket, tax_brackets, bracket_matches]
  · norm_num [calculate_small_business_tax, find_bracket, tax_brackets, bracket_matches]

/-- Witness for C1: the second bracket contains income 91251 and the bracket
formula evaluates there to tax 0.07 at rate 0.07. -/
theorem c1_witness :
    ((0 : ℚ) ≤ 91251 ∧
      (⟨91251, some 365000, 7 / 100, 0⟩ : TaxBracket) ∈ tax_brackets ∧
      bracket_matches 91251 ⟨91251, some 365000, 7 / 100, 0⟩ = true) ∧
    calculate_small_business_tax 91251 =
      ((0 : ℚ) + (91251 - 91251 + 1) * (7 / 100), 7 / 100) :=
  ⟨⟨by norm_num, List.mem_cons_of_mem _ (List.mem_cons_self _ _),
    by norm_num [bracket_matches]⟩,
   c1_small_business_tax_formula.1 91251 (by norm_num)
     ⟨91251, some 365000, 7 / 100, 0⟩
     (List.mem_cons_of_mem _ (List.mem_cons_self _ _)) (by norm_num [bracket_matches])⟩

/-- Counterexample to C5: the non-negative income 91250.5 lies strictly
between the first two brackets, no bracket matches it, and
`calculate_small_business_tax` takes the trailing `return 0, 0` — so the
out-of-range return is reachable. -/
theorem c5_counterexample :
    (0 : ℚ) ≤ 182501 / 2 ∧ find_bracket (182501 / 2) tax_brackets = none ∧
    calculate_small_business_tax (182501 / 2) = (0, 0) := by
  refine ⟨by norm_num, ?_, ?_⟩ <;>
    norm_num [calculate_small_business_tax, find_bracket, tax_brackets, bracket_matches]

/-- C5 (amended): for every non-negative income that is a whole number of
currency units the bracket search does find a matching bracket, so the
trailing `return 0, 0` is unreachable for integer incomes; fractional incomes
strictly between bracket bounds (such as 91250.5) reach it. -/
theorem c5_amended_integer_income_matches (n : ℕ) :
    (find_bracket (n : ℚ) tax_brackets).isSome = true := by
  have h0 : (0 : ℚ) ≤ (n : ℚ) := Nat.cast_nonneg n
  by_cases h1 : (n : ℚ) ≤ 91250
  · simp [find_bracket, tax_brackets, bracket_matches, h0, h1]
  · have h1' : (91251 : ℚ) ≤ (n : ℚ) := by
      have hq : (91250 : ℚ) < n := not_le.mp h1
      have hn : 91250 < n := by exact_mod_cast hq
      exact_mod_cast hn
    by_cases h2 : (n : ℚ) ≤ 365000
    · simp [find_bracket, tax_brackets, bracket_matches, h1, h1', h2]
    · have h2' : (365001 : ℚ) ≤ (n : ℚ) := by
        have hq : (365000 : ℚ) < n := not_le.mp h2
        have hn : 365000 < n := by exact_mod_cast hq
        exact_mod_cast hn
      by_cases h3 : (n : ℚ) ≤ 550000
      · simp [find_bracket, tax_brackets, bracket_matches, h1, h2, h2', h3]
      · have h3' : (550001 : ℚ) ≤ (n : ℚ) := by
          have hq : (550000 : ℚ) < n := not_le.mp h3
          have hn : 550000 < n := by exact_mod_cast hq
          exact_mod_cast hn
        simp [find_bracket, tax_brackets, bracket_matches, h1, h2, h3, h3']

/-- C6: under standard (non-small-business) rules `calculate_business_tax`
returns exactly income times 0.27 with rate 0.27, with no bracketing. -/
theorem c6_flat_tax (taxable_income : ℚ) :
    calculate_business_tax taxable_income = (taxable_income * (27 / 100), 27 / 100) :=
  rfl

/-- C8: on both pages that feed the tax calculators, taxable income equals
`max(0, total_revenue - total_expenses - total_depreciation)` and is never
negative. -/
theorem c8_taxable_income_floor (total_revenue total_expenses total_depreciation : ℚ) :
    taxable_income_calculator_page total_revenue total_expenses total_depreciation
        = max 0 (total_revenue - total_expenses - total_depreciation) ∧
    taxable_income_reports_page total_revenue total_expenses total_depreciation
        = max 0 (total_revenue - total_expenses - total_depreciation) ∧
    0 ≤ taxable_income_calculator_page total_revenue total_expenses total_depreciation ∧
    0 ≤ taxable_income_reports_page total_revenue total_expenses total_depreciation := by
  refine ⟨?_, rfl, le_max_left _ _, le_max_left _ _⟩
  simp [taxable_income_calculator_page, sub_add_eq_sub_sub]

/-- C4: for cost ≥ 0, expected life > 0 and years owned ≥ 0, accumulated
depreciation never exceeds the purchase cost and the current book value is
never negative. -/
theorem c4_depreciation_bounds (purchase_cost expected_life years_owned : ℚ)
    (hcost : 0 ≤ purchase_cost) (hlife : 0 < expected_life)
    (hyears : 0 ≤ years_owned) :
    (calculate_depreciation purchase_cost expected_life years_owned).accumulated_depreciation
        ≤ purchase_cost ∧
    0 ≤ (calculate_depreciation purchase_cost expected_life years_owned).current_value :=
  ⟨min_le_right _ _, le_max_right _ _⟩

/-- Witness for C4 at cost 10000, life 5, years owned 2. -/
theorem c4_witness :
    (0 : ℚ) ≤ 10000 ∧ (0 : ℚ) < 5 ∧ (0 : ℚ) ≤ 2 ∧
    ((calculate_depreciation 10000 5 2).accumulated_depreciation ≤ 10000 ∧
     0 ≤ (calculate_depreciation 10000 5 2).current_value) :=
  ⟨by norm_num, by norm_num, by norm_num,
   c4_depreciation_bounds 10000 5 2 (by norm_num) (by norm_num) (by norm_num)⟩

/-- C7: with expected life > 0 the depreciation calculation yields
`annual = cost / life`, `accumulated = min(years * annual, cost)` and
`current_value = max(cost - accumulated, 0)`; at cost 10000, life 5,
years owned 2 this gives annual 2000, accumulated 4000, current value 6000. -/
theorem c7_depreciation_formula :
    (∀ purchase_cost expected_life years_owned : ℚ, 0 < expected_life →
      (calculate_depreciation purchase_cost expected_life years_owned).annual_depreciation
          = purchase_cost / expected_life ∧
      (calculate_depreciation purchase_cost expected_life years_owned).accumulated_depreciation
          = min (years_owned * (purchase_cost / expected_life)) purchase_cost ∧
      (calculate_depreciation purchase_cost expected_life years_owned).current_value
          = max (purchase_cost
              - min (years_owned * (purchase_cost / expected_life)) purchase_cost) 0) ∧
    calculate_depreciation 10000 5 2 = ⟨2000, 4000, 6000⟩ := by
  refine ⟨fun c l y _ => ⟨rfl, rfl, rfl⟩, by norm_num [calculate_depreciation]⟩

/-- Witness for C7 at cost 10000, life 5, years owned 2. -/
theorem c7_witness :
    (0 : ℚ) < 5 ∧ (calculate_depreciation 10000 5 2).annual_depreciation = 10000 / 5 :=
  ⟨by norm_num, (c7_depreciation_formula.1 10000 5 2 (by norm_num)).1⟩

end Btax

namespace DocumentR

lemma retryGo_retry_step (behavior : ℕ → Outcome) (jitter : ℕ → ℚ) (fb : String)
    (attempt remaining : ℕ) (msg : String)
    (h1 : behavior attempt = .failure msg) (h2 : contains429 msg = true)
    (h3 : 0 < remaining) :
    retryGo behavior jitter fb attempt (remaining + 1) =
      ⟨(retryGo behavior jitter fb (attempt + 1) remaining).result,
       ((2 : ℚ) ^ attempt + jitter attempt)
         :: (retryGo behavior jitter fb (attempt + 1) remaining).delays,
       (retryGo behavior jitter fb (attempt + 1) remaining).fallbackCalls⟩ := by
  simp [retryGo, h1, h2, h3]

lemma retryGo_success (behavior : ℕ → Outcome) (jitter : ℕ → ℚ) (fb v : String) :
    ∀ k attempt fuel, k < fuel →
      (∀ i, i < k → rate_limit_failure behavior (attempt + i)) →
      behavior (attempt + k) = .success v →
      retryGo behavior jitter fb attempt fuel =
        ⟨.ok v, delaysFrom jitter attempt k, 0⟩ := by
  intro k
  induction k with
  | zero =>
    intro attempt fuel hf h429 hsucc
    obtain ⟨fuel', rfl⟩ : ∃ f, fuel = f + 1 := ⟨fuel - 1, by omega⟩
    rw [Nat.add_zero] at hsucc
    simp [retryGo, hsucc, delaysFrom]
  | succ k ih =>
    intro attempt fuel hf h429 hsucc
    obtain ⟨fuel', rfl⟩ : ∃ f, fuel = f + 1 := ⟨fuel - 1, by omega⟩
    obtain ⟨m, hm, hm429⟩ := h429 0 (Nat.succ_pos k)
    rw [Nat.add_zero] at hm
    have hfuel' : 0 < fuel' := by omega
    have hrest := ih (attempt + 1) fuel' (by omega)
      (fun i hi => by
        have hh := h429 (i + 1) (by omega)
        rwa [show attempt + (i + 1) = attempt + 1 + i by omega] at hh)
      (by rwa [show attempt + (k + 1) = attempt + 1 + k by omega] at hsucc)
    simp [retryGo, hm, hm429, hfuel', hrest, delaysFrom]

lemma retryGo_fallback (behavior : ℕ → Outcome) (jitter : ℕ → ℚ) (fb m : String) :
    ∀ k attempt, (∀ i, i < k → rate_limit_failure behavior (attempt + i)) →
      behavior (attempt + k) = .failure m →
      retryGo behavior jitter fb attempt (k + 1) =
        ⟨.fallbackReturn fb, delaysFrom jitter attempt k, 1⟩ := by
  intro k
  induction k with
  | zero =>
    intro attempt h429 hfail
    rw [Nat.add_zero] at hfail
    simp [retryGo, hfail, delaysFrom]
  | succ k ih =>
    intro attempt h429 hfail
    obtain ⟨m0, hm0, hm0429⟩ := h429 0 (Nat.succ_pos k)
    rw [Nat.add_zero] at hm0
    have hpos : 0 < k + 1 := Nat.succ_pos k
    have hrest := ih (attempt + 1)
      (fun i hi => by
        have hh := h429 (i + 1) (by omega)
        rwa [show attempt + (i + 1) = attempt + 1 + i by omega] at hh)
      (by rwa [show attempt + (k + 1) = attempt + 1 + k by omega] at hfail)
    rw [retryGo_retry_step behavior jitter fb attempt (k + 1) m0 hm0 hm0429 hpos, hrest]
    simp [delaysFrom]

lemma retryGo_raise (behavior : ℕ → Outcome) (jitter : ℕ → ℚ) (fb m : String) :
    ∀ k attempt fuel, k + 1 < fuel →
      (∀ i, i < k → rate_limit_failure behavior (attempt + i)) →
      behavior (attempt + k) = .failure m →
      contains429 m = false →
      retryGo behavior jitter fb attempt fuel =
        ⟨.raised m, delaysFrom jitter attempt k, 0⟩ := by
  intro k
  induction k with
  | zero =>
    intro attempt fuel hf h429 hfail h429f
    obtain ⟨fuel', rfl⟩ : ∃ f, fuel = f + 1 := ⟨fuel - 1, by omega⟩
    rw [Nat.add_zero] at hfail
    have hfuel' : fuel' ≠ 0 := by omega
    simp [retryGo, hfail, h429f, hfuel', delaysFrom]
  | succ k ih =>
    intro attempt fuel hf h429 hfail h429f
    obtain ⟨fuel', rfl⟩ : ∃ f, fuel = f + 1 := ⟨fuel - 1, by omega⟩
    obtain ⟨m0, hm0, hm0429⟩ := h429 0 (Nat.succ_pos k)
    rw [Nat.add_zero] at hm0
    have hfuel' : 0 < fuel' := by omega
    have hrest := ih (attempt + 1) fuel' (by omega)
      (fun i hi => by
        have hh := h429 (i + 1) (by omega)
        rwa [show attempt + (i + 1) = attempt + 1 + i by omega] at hh)
      (by rwa [show attempt + (k + 1) = attempt + 1 + k by omega] at hfail) h429f
    simp [retryGo, hm0, hm0429, hfuel', hrest, delaysFrom]

/-- C2: under `process_with_retry` with `max_retries` attempts, rate-limit
failures (text containing 429) on every attempt before the last followed by a
success on the last attempt return the success value with no fallback call;
rate-limit failures on all attempts invoke the fallback exactly once and
return its output. In both cases a delay of `2 ^ attempt + jitter` is slept
before each retry. -/
theorem c2_retry_rate_limit_policy (behavior : ℕ → Outcome) (jitter : ℕ → ℚ)
    (fb : String) (max_retries : ℕ) (hN : 0 < max_retries)
    (h429 : ∀ i, i + 1 < max_retries → rate_limit_failure behavior i) :
    (∀ v, behavior (max_retries - 1) = .success v →
      process_with_retry behavior jitter fb max_retries =
        ⟨.ok v, delaysFrom jitter 0 (max_retries - 1), 0⟩) ∧
    (∀ m, behavior (max_retries - 1) = .failure m → contains429 m = true →
      process_with_retry behavior jitter fb max_retries =
        ⟨.fallbackReturn fb, delaysFrom jitter 0 (max_retries - 1), 1⟩) := by
  constructor
  · intro v hv
    have h := retryGo_success behavior jitter fb v (max_retries - 1) 0 max_retries
      (by omega) (fun i hi => by simpa using h429 i (by omega)) (by simpa using hv)
    simpa [process_with_retry] using h
  · intro m hm hm429
    have h := retryGo_fallback behavior jitter fb m (max_retries - 1) 0
      (fun i hi => by simpa using h429 i (by omega)) (by simpa using hm)
    have heq : max_retries - 1 + 1 = max_retries := by omega
    rw [heq] at h
    simpa [process_with_retry] using h

/-- Witness for C2: a 429 failure on the first of two attempts followed by a
success returns the success value with one backoff delay and no fallback. -/
theorem c2_witness :
    process_with_retry
        (fun i => if i = 0 then Outcome.failure ("HTTP 429") else Outcome.success ("done"))
        (fun _ => 1 / 2) ("fb") 2 =
      ⟨RetryOutcome.ok ("done"), delaysFrom (fun _ => 1 / 2) 0 1, 0⟩ :=
  (c2_retry_rate_limit_policy
      (fun i => if i = 0 then Outcome.failure ("HTTP 429") else Outcome.success ("done"))
      (fun _ => 1 / 2) ("fb") 2 (by norm_num)
      (fun i hi => by
        have hi0 : i = 0 := by omega
        subst hi0
        exact ⟨("HTTP 429"), rfl, by decide⟩)).1 ("done") rfl

/-- Counterexample to C3: a failure without 429 in its text on the first of
three attempts re-raises the exception — the fallback model is not invoked
and its output is not returned, contrary to the claim. -/
theorem c3_counterexample :
    process_with_retry (fun _ => Outcome.failure ("boom")) (fun _ => 0) ("fb") 3 =
      ⟨RetryOutcome.raised ("boom"), [], 0⟩ ∧
    (process_with_retry (fun _ => Outcome.failure ("boom")) (fun _ => 0) ("fb") 3).result
      ≠ RetryOutcome.fallbackReturn ("fb") := by
  refine ⟨rfl, ?_⟩
  intro h
  have h1 : (process_with_retry (fun _ => Outcome.failure ("boom")) (fun _ => 0) ("fb")
      3).result = RetryOutcome.raised ("boom") := rfl
  rw [h1] at h
  exact RetryOutcome.noConfusion h

/-- C3 (amended): a failure whose text does not contain 429 delegates to the
fallback model only when it occurs on the final attempt; on any earlier
attempt the exception is re-raised and the fallback is never invoked. -/
theorem c3_amended_non_rate_limit (behavior : ℕ → Outcome) (jitter : ℕ → ℚ)
    (fb : String) (max_retries k : ℕ) (m : String)
    (h429 : ∀ i, i < k → rate_limit_failure behavior i)
    (hfail : behavior k = .failure m) (hm : contains429 m = false) :
    (k + 1 < max_retries →
      process_with_retry behavior jitter fb max_retries =
        ⟨.raised m, delaysFrom jitter 0 k, 0⟩) ∧
    (k + 1 = max_retries →
      process_with_retry behavior jitter fb max_retries =
        ⟨.fallbackReturn fb, delaysFrom jitter 0 k, 1⟩) := by
  constructor
  · intro hk
    have h := retryGo_raise behavior jitter fb m k 0 max_retries hk
      (fun i hi => by simpa using h429 i hi) (by simpa using hfail) hm
    simpa [process_with_retry] using h
  · intro hk
    have h := retryGo_fallback behavior jitter fb m k 0
      (fun i hi => by simpa using h429 i hi) (by simpa using hfail)
    rw [hk] at h
    simpa [process_with_retry] using h

/-- Witness for the amended C3: a non-429 failure on the first of four
attempts is re-raised with no delays and no fallback call. -/
theorem c3_witness :
    process_with_retry (fun _ => Outcome.failure ("oops")) (fun _ => 0) ("fb") 4 =
      ⟨RetryOutcome.raised ("oops"), delaysFrom (fun _ => 0) 0 0, 0⟩ :=
  (c3_amended_non_rate_limit (fun _ => Outcome.failure ("oops")) (fun _ => 0) ("fb") 4 0
    ("oops") (fun i hi => absurd hi (Nat.not_lt_zero i)) rfl (by decide)).1 (by norm_num)

lemma summarize_chunks_eq (call : String → Option String) (f : String → String) :
    ∀ chunks : List String,
      (∀ c ∈ chunks, call (summary_prompt_text c) = some (f c)) →
      summarize_chunks call chunks
        = (some (chunks.map f), chunks.map summary_prompt_text) := by
  intro chunks
  induction chunks with
  | nil => intro _; rfl
  | cons c rest ih =>
    intro h
    have hc := h c (List.mem_cons_self c rest)
    have hrest := ih (fun x hx => h x (List.mem_cons_of_mem c hx))
    simp [summarize_chunks, hc, hrest]

/-- C9: when each per-chunk retry-wrapped invocation returns a summary,
`generate_document_summary` issues the per-chunk summary prompt exactly once
per chunk in list order, joins the per-chunk summaries with spaces in the same
order, and issues the second summarization prompt exactly once over that
concatenation, returning its result; every invocation goes through
`process_with_retry`. -/
theorem c9_generate_document_summary (behavior : String → ℕ → Outcome)
    (jitter : ℕ → ℚ) (fb : String) (max_retries : ℕ)
    (document_chunks : List String) (f : String → String)
    (hcall : ∀ c ∈ document_chunks,
      llm_call_with_retry behavior jitter fb max_retries (summary_prompt_text c)
        = some (f c)) :
    generate_document_summary (llm_call_with_retry behavior jitter fb max_retries)
        document_chunks =
      (llm_call_with_retry behavior jitter fb max_retries
         (final_summary_prompt_text
           (String.intercalate (" ") (document_chunks.map f))),
       document_chunks.map summary_prompt_text ++
         [final_summary_prompt_text
           (String.intercalate (" ") (document_chunks.map f))]) := by
  have h := summarize_chunks_eq (llm_call_with_retry behavior jitter fb max_retries)
    f document_chunks hcall
  simp [generate_document_summary, h]

/-- Witness for C9: with a model that always answers the same string, one
chunk produces the per-chunk prompt then the final prompt, and the final
answer is returned. -/
theorem c9_witness :
    generate_document_summary
        (llm_call_with_retry (fun _ _ => Outcome.success ("s")) (fun _ => 0) ("fb") 1)
        (["a"]) =
      (some ("s"), [summary_prompt_text ("a"), final_summary_prompt_text ("s")]) := by
  have h := c9_generate_document_summary (fun _ _ => Outcome.success ("s")) (fun _ => 0)
    ("fb") 1 (["a"]) (fun _ => ("s")) (fun c _ => rfl)
  exact h.trans (by rfl)

/-- C10: `upload_file_to_firebase` in DocumentR.py returns None for every
input: the module never imports datetime, so the name lookup in the try block
raises NameError, the broad except branch runs, and no upload ever succeeds. -/
theorem c10_upload_always_none (upload_result : String) :
    upload_file_to_firebase documentr_imported_names upload_result = none := by
  simp [upload_file_to_firebase, documentr_imported_names]

end DocumentR
